import Mathlib

/-!
Shallow embedding of the `pycaiso` OASIS client (`pycaiso/oasis.py`) and
verification of its specification claims.

Conventions of the embedding:
* Python `datetime.datetime` values are modelled by `PyDatetime`
  (year/month/day/hour/minute/second; sub-second precision is not needed by
  any claim).  Python's lexicographic comparison of datetimes is modelled by
  comparing the injective monotone key `PyDatetime.key`.
* `datetime.now()` is modelled by an explicit `now : PyDatetime` parameter.
* Exceptions are modelled with `Except PyError`; a function that Python lets
  raise is embedded as a function into `Except`.
* The HTTP layer is modelled by an oracle `fetch : Params → HttpResponse`
  passed explicitly: `requests.get(url, params)` becomes `fetch params`.
-/

/-- Model of a Python naive `datetime.datetime` (microseconds dropped:
no claim depends on sub-second precision). -/
structure PyDatetime where
  year : Nat
  month : Nat
  day : Nat
  hour : Nat
  minute : Nat
  second : Nat
  deriving Repr, DecidableEq

/-- Gregorian leap-year test, as used by Python's `calendar`/`datetime`. -/
def isLeap (y : Nat) : Bool :=
  (y % 4 == 0 && y % 100 != 0) || y % 400 == 0

/-- Number of days in month `m` of year `y` (months numbered 1..12). -/
def daysInMonth (y m : Nat) : Nat :=
  if m = 2 then (if isLeap y then 29 else 28)
  else if m = 4 ∨ m = 6 ∨ m = 9 ∨ m = 11 then 30
  else 31

/-- Field bounds that every Python `datetime.datetime` satisfies by
construction (`MINYEAR = 1`, `MAXYEAR = 9999`). -/
def PyDatetime.valid (d : PyDatetime) : Prop :=
  1 ≤ d.year ∧ d.year ≤ 9999 ∧
  1 ≤ d.month ∧ d.month ≤ 12 ∧
  1 ≤ d.day ∧ d.day ≤ daysInMonth d.year d.month ∧
  d.hour < 24 ∧ d.minute < 60 ∧ d.second < 60

instance (d : PyDatetime) : Decidable d.valid := by
  unfold PyDatetime.valid; infer_instance

/-- Injective monotone encoding of a datetime; for datetimes with valid field
bounds, comparing keys is Python's lexicographic datetime comparison. -/
def PyDatetime.key (d : PyDatetime) : Nat :=
  ((((d.year * 13 + d.month) * 32 + d.day) * 24 + d.hour) * 60 + d.minute) * 60
    + d.second

/-- Embedding of Python `a > b` on datetimes. -/
def PyDatetime.gt (a b : PyDatetime) : Bool :=
  b.key < a.key

/-- Embedding of Python `d.date()`: the calendar-date part. -/
def PyDatetime.datePart (d : PyDatetime) : Nat × Nat × Nat :=
  (d.year, d.month, d.day)

/-- The decimal digit character for `k < 10`, i.e. `chr(48 + k)`. -/
def digitChar (k : Nat) : Char :=
  Char.ofNat (48 + k)

/-- Two-digit zero-padded decimal rendering (as a character list), the
behaviour of `%m`, `%d`, `%H`, `%M` for the in-range values Python feeds
them. -/
def pad2 (n : Nat) : List Char :=
  [digitChar (n / 10 % 10), digitChar (n % 10)]

/-- Four-digit zero-padded decimal rendering (as a character list), the
behaviour of `%Y` for years up to 9999. -/
def pad4 (n : Nat) : List Char :=
  [digitChar (n / 1000 % 10), digitChar (n / 100 % 10),
   digitChar (n / 10 % 10), digitChar (n % 10)]

/-- Embedding of `dt.strftime("%Y-%m-%d")`, used to build the error strings
of `_validate_date_range`. -/
def strftimeDateDashed (d : PyDatetime) : String :=
  String.mk (pad4 d.year ++ ('-' :: pad2 d.month) ++ ('-' :: pad2 d.day))

/-- Embedding of `Oasis._validate_date_range(start, end)`.  Returns the error
message the Python code would put in `error` (later checks overwrite the
message of earlier ones), or `none` when the function returns normally.
`now` stands for `datetime.now()`. -/
def validate_date_range (now start end_ : PyDatetime) : Option String :=
  let STRNOW : String := strftimeDateDashed now
  let e1 : Option String :=
    if start.gt end_ then some "Start must be before end." else none
  let e2 : Option String :=
    if start.gt now then some ("Start must be before today, " ++ STRNOW)
    else if end_.gt now then
      some ("End must be before or equal to today, " ++ STRNOW)
    else e1
  if start.datePart = end_.datePart then
    some "Start and end cannot be equal. To return data only from start date, pass only start."
  else e2

theorem validate_raises_iff_aux (now start end_ : PyDatetime) :
    (validate_date_range now start end_).isSome = true ↔
      (start.gt end_ = true ∨ start.gt now = true ∨ end_.gt now = true ∨
        start.datePart = end_.datePart) := by
  unfold validate_date_range
  by_cases h1 : start.gt end_ = true <;>
    by_cases h2 : start.gt now = true <;>
      by_cases h3 : end_.gt now = true <;>
        by_cases h4 : start.datePart = end_.datePart <;>
          simp [h1, h2, h3, h4]

/-- One extra day in leap years. -/
def leapDay (y : Nat) : Nat :=
  if isLeap y then 1 else 0

/-- Days elapsed in year `y` before month `m` begins (months 1..12). -/
def daysBeforeMonth (y m : Nat) : Nat :=
  match m with
  | 1 => 0
  | 2 => 31
  | 3 => 59 + leapDay y
  | 4 => 90 + leapDay y
  | 5 => 120 + leapDay y
  | 6 => 151 + leapDay y
  | 7 => 181 + leapDay y
  | 8 => 212 + leapDay y
  | 9 => 243 + leapDay y
  | 10 => 273 + leapDay y
  | 11 => 304 + leapDay y
  | _ => 334 + leapDay y

/-- Proleptic-Gregorian day number of a datetime's date, with 0001-01-01
mapped to 0 (Python's `date.toordinal() - 1`). -/
def toDays (d : PyDatetime) : Nat :=
  365 * (d.year - 1) + (d.year - 1) / 4 - (d.year - 1) / 100 + (d.year - 1) / 400
    + daysBeforeMonth d.year d.month + (d.day - 1)

/-- The calendar successor of a date (time-of-day fields unchanged). -/
def nextDate (d : PyDatetime) : PyDatetime :=
  if d.day < daysInMonth d.year d.month then { d with day := d.day + 1 }
  else if d.month < 12 then { d with month := d.month + 1, day := 1 }
  else { d with year := d.year + 1, month := 1, day := 1 }

/-- Embedding of `dt + datetime.timedelta(days=n)`. -/
def addDaysNat : Nat → PyDatetime → PyDatetime
  | 0, d => d
  | n + 1, d => addDaysNat n (nextDate d)

/-- Minutes from 0001-01-01 00:00 to the datetime (seconds ignored; all
offsets this development handles are whole minutes). -/
def absMinutes (d : PyDatetime) : Nat :=
  toDays d * 1440 + d.hour * 60 + d.minute

/-- Embedding of `dt + datetime.timedelta(minutes=k)` (seconds unchanged). -/
def addMinutes (d : PyDatetime) (k : Nat) : PyDatetime :=
  let t := d.hour * 60 + d.minute + k
  let base := addDaysNat (t / 1440) d
  { base with hour := t % 1440 / 60, minute := t % 60 }

theorem isLeap_iff (y : Nat) :
    isLeap y = true ↔ ((y % 4 = 0 ∧ y % 100 ≠ 0) ∨ y % 400 = 0) := by
  simp [isLeap, Bool.or_eq_true, Bool.and_eq_true, beq_iff_eq, bne_iff_ne]

theorem daysInMonth_ge (y m : Nat) : 28 ≤ daysInMonth y m := by
  unfold daysInMonth
  split
  · split <;> omega
  · split <;> omega

theorem daysBeforeMonth_step (y m : Nat) (h1 : 1 ≤ m) (h2 : m ≤ 11) :
    daysBeforeMonth y (m + 1) = daysBeforeMonth y m + daysInMonth y m := by
  have hm : m = 1 ∨ m = 2 ∨ m = 3 ∨ m = 4 ∨ m = 5 ∨ m = 6 ∨ m = 7 ∨ m = 8 ∨
      m = 9 ∨ m = 10 ∨ m = 11 := by omega
  rcases hm with rfl | rfl | rfl | rfl | rfl | rfl | rfl | rfl | rfl | rfl | rfl <;>
    simp [daysBeforeMonth, daysInMonth, leapDay] <;>
      cases hL : isLeap y <;> simp [hL]

theorem leaps_step (y : Nat) (hy : 1 ≤ y) :
    y / 4 - y / 100 + y / 400
      = ((y - 1) / 4 - (y - 1) / 100 + (y - 1) / 400) + leapDay y := by
  unfold leapDay
  by_cases m4 : y % 4 = 0 <;> by_cases m100 : y % 100 = 0 <;>
    by_cases m400 : y % 400 = 0 <;>
      simp [isLeap_iff, m4, m100, m400] <;> omega

set_option maxHeartbeats 2000000 in
theorem toDays_nextDate_dec31 (d : PyDatetime) (hy1 : 1 ≤ d.year)
    (hm12 : d.month = 12) (hde31 : d.day = 31) :
    toDays (nextDate d) = toDays d + 1 := by
  unfold nextDate
  rw [if_neg (by simp [hm12, hde31, daysInMonth]), if_neg (by omega)]
  unfold toDays
  dsimp only
  rw [hm12, hde31]
  have hstep := leaps_step d.year hy1
  simp only [daysBeforeMonth]
  omega

theorem toDays_nextDate_monthEnd (d : PyDatetime) (hm1 : 1 ≤ d.month)
    (hm11 : d.month ≤ 11) (hd1 : 1 ≤ d.day)
    (hde : d.day = daysInMonth d.year d.month) :
    toDays (nextDate d) = toDays d + 1 := by
  unfold nextDate
  rw [if_neg (by omega), if_pos (by omega)]
  unfold toDays
  dsimp only
  rw [daysBeforeMonth_step d.year d.month hm1 hm11]
  omega

theorem toDays_nextDate (d : PyDatetime) (h : d.valid) :
    toDays (nextDate d) = toDays d + 1 := by
  obtain ⟨hy1, hy2, hm1, hm2, hd1, hd2, -⟩ := h
  by_cases c1 : d.day < daysInMonth d.year d.month
  · unfold nextDate
    rw [if_pos c1]
    unfold toDays
    dsimp only
    omega
  · have hde : d.day = daysInMonth d.year d.month := by omega
    by_cases c2 : d.month < 12
    · exact toDays_nextDate_monthEnd d hm1 (by omega) hd1 hde
    · have hm12 : d.month = 12 := by omega
      refine toDays_nextDate_dec31 d hy1 hm12 ?_
      rw [hm12] at hde
      simpa [daysInMonth] using hde

theorem nextDate_time (d : PyDatetime) :
    (nextDate d).hour = d.hour ∧ (nextDate d).minute = d.minute ∧
      (nextDate d).second = d.second := by
  unfold nextDate
  split
  · exact ⟨rfl, rfl, rfl⟩
  split
  · exact ⟨rfl, rfl, rfl⟩
  · exact ⟨rfl, rfl, rfl⟩

theorem nextDate_valid (d : PyDatetime) (h : d.valid) (hy : d.year ≤ 9998) :
    (nextDate d).valid ∧ (nextDate d).year ≤ d.year + 1 := by
  obtain ⟨hy1, hy2, hm1, hm2, hd1, hd2, hh, hmin, hs⟩ := h
  by_cases c1 : d.day < daysInMonth d.year d.month
  · have e : nextDate d = { d with day := d.day + 1 } := by
      unfold nextDate
      rw [if_pos c1]
    rw [e]
    unfold PyDatetime.valid
    dsimp only
    omega
  · by_cases c2 : d.month < 12
    · have e : nextDate d = { d with month := d.month + 1, day := 1 } := by
        unfold nextDate
        rw [if_neg c1, if_pos c2]
      rw [e]
      unfold PyDatetime.valid
      dsimp only
      have := daysInMonth_ge d.year (d.month + 1)
      omega
    · have e : nextDate d = { d with year := d.year + 1, month := 1, day := 1 } := by
        unfold nextDate
        rw [if_neg c1, if_neg c2]
      rw [e]
      unfold PyDatetime.valid
      dsimp only
      have := daysInMonth_ge (d.year + 1) 1
      omega

theorem addDaysNat_spec (n : Nat) : ∀ d : PyDatetime, d.valid → d.year + n ≤ 9999 →
    ((addDaysNat n d).valid ∧ (addDaysNat n d).year ≤ d.year + n ∧
      toDays (addDaysNat n d) = toDays d + n ∧
      (addDaysNat n d).hour = d.hour ∧ (addDaysNat n d).minute = d.minute ∧
      (addDaysNat n d).second = d.second) := by
  induction n with
  | zero =>
    intro d hd _
    simp only [addDaysNat]
    exact ⟨hd, by omega, by omega, trivial, trivial, trivial⟩
  | succ n ih =>
    intro d hd hy
    have hnv := nextDate_valid d hd (by omega)
    have hnt := nextDate_time d
    have hnd := toDays_nextDate d hd
    have hrec := ih (nextDate d) hnv.1 (by omega)
    unfold addDaysNat
    refine ⟨hrec.1, by omega, by omega, ?_, ?_, ?_⟩
    · rw [hrec.2.2.2.1, hnt.1]
    · rw [hrec.2.2.2.2.1, hnt.2.1]
    · rw [hrec.2.2.2.2.2, hnt.2.2]

theorem addMinutes_spec (d : PyDatetime) (k : Nat) (h : d.valid)
    (hroom : d.year + (d.hour * 60 + d.minute + k) / 1440 ≤ 9999) :
    ((addMinutes d k).valid ∧
      absMinutes (addMinutes d k) = absMinutes d + k ∧
      (addMinutes d k).second = d.second ∧
      (addMinutes d k).year ≤ d.year + (d.hour * 60 + d.minute + k) / 1440) := by
  obtain ⟨hy1, hy2, hm1, hm2, hd1, hd2, hh, hmin, hs⟩ := h
  have hspec := addDaysNat_spec ((d.hour * 60 + d.minute + k) / 1440) d
    ⟨hy1, hy2, hm1, hm2, hd1, hd2, hh, hmin, hs⟩ hroom
  obtain ⟨⟨by1, by2, bm1, bm2, bd1, bd2, bh, bmin, bs⟩, hyr, htd, hht, hmt, hst⟩ := hspec
  unfold addMinutes
  dsimp only
  constructor
  · unfold PyDatetime.valid
    dsimp only
    refine ⟨by1, by2, bm1, bm2, bd1, ?_, by omega, by omega, bs⟩
    exact bd2
  constructor
  · unfold absMinutes
    dsimp only
    have htd2 : toDays { addDaysNat ((d.hour * 60 + d.minute + k) / 1440) d with
        hour := (d.hour * 60 + d.minute + k) % 1440 / 60,
        minute := (d.hour * 60 + d.minute + k) % 60 }
        = toDays (addDaysNat ((d.hour * 60 + d.minute + k) / 1440) d) := rfl
    rw [htd2, htd]
    omega
  constructor
  · exact hst
  · exact hyr

/-- Day of March on which US daylight-saving time begins (the second Sunday
of March; valid for years ≥ 2007).  `toDays` of 0001-01-01 is 0, a Monday,
so a date is a Sunday when `toDays % 7 = 6`. -/
def dstStartDay (y : Nat) : Nat :=
  8 + (13 - toDays ⟨y, 3, 8, 0, 0, 0⟩ % 7) % 7

/-- Day of November on which US daylight-saving time ends (the first Sunday
of November; valid for years ≥ 2007). -/
def dstEndDay (y : Nat) : Nat :=
  1 + (13 - toDays ⟨y, 11, 1, 0, 0, 0⟩ % 7) % 7

/-- Whether `pytz.timezone("America/Los_Angeles").localize(dt)` (with its
default `is_dst=False`) attaches the daylight (PDT, UTC-7) offset to the
naive datetime `dt`, for years ≥ 2007.  DST runs from 02:00 standard time on
the second Sunday of March to 02:00 daylight time on the first Sunday of
November; `is_dst=False` resolves both the nonexistent local times
02:00–02:59 on the start day and the ambiguous local times 01:00–01:59 on
the end day to PST.  Hence daylight is attached from 03:00 on the start day
up to (not including) 01:00 on the end day. -/
def pytzIsDstLA (d : PyDatetime) : Bool :=
  let mdKey := (d.month * 32 + d.day) * 1440 + d.hour * 60 + d.minute
  let startKey := (3 * 32 + dstStartDay d.year) * 1440 + 180
  let endKey := (11 * 32 + dstEndDay d.year) * 1440 + 60
  startKey ≤ mdKey && mdKey < endKey

/-- Minutes to add to an America/Los_Angeles local time to reach UTC
(the negative of the `utcoffset` pytz attaches): 420 under PDT, 480 under
PST. -/
def laOffsetMinutes (d : PyDatetime) : Nat :=
  if pytzIsDstLA d then 420 else 480

/-- A timezone-aware datetime: naive fields plus the tzinfo's UTC offset in
minutes. -/
structure AwareDatetime where
  naive : PyDatetime
  utcoffsetMinutes : Int

/-- Embedding of `pytz.timezone("America/Los_Angeles").localize(dt)` with
the default `is_dst=False` (years ≥ 2007): the naive datetime acquires the
LA offset in effect, −480 or −420 minutes. -/
def localizeLA (d : PyDatetime) : AwareDatetime :=
  ⟨d, -(laOffsetMinutes d : Int)⟩

/-- Embedding of `aware.astimezone(pytz.UTC)` for the western-hemisphere
offsets this client produces (offset ≤ 0): the UTC clock reading is the
naive reading minus the offset. -/
def astimezoneUTC (a : AwareDatetime) : PyDatetime :=
  addMinutes a.naive (-a.utcoffsetMinutes).toNat

/-- Embedding of `dt.strftime("%Y%m%dT%H:%M-0000")`. -/
def strftimeUTCFmt (d : PyDatetime) : String :=
  String.mk (pad4 d.year ++ pad2 d.month ++ pad2 d.day ++ ('T' :: pad2 d.hour)
    ++ (':' :: pad2 d.minute) ++ ('-' :: '0' :: '0' :: '0' :: '0' :: []))

/-- Embedding of `Oasis._get_UTC_string(dt)` at its default arguments:
`pytz.timezone("America/Los_Angeles").localize(dt).astimezone(pytz.UTC)
.strftime("%Y%m%dT%H:%M-0000")`. -/
def get_UTC_string (d : PyDatetime) : String :=
  strftimeUTCFmt (astimezoneUTC (localizeLA d))

/-- The datetime with the seconds field zeroed (the output format of
`_get_UTC_string` has minute precision). -/
def stripSec (d : PyDatetime) : PyDatetime :=
  { d with second := 0 }

/-- The UTC equivalent of an LA-local naive datetime, as the spec words it:
the instant shifted by the UTC offset in effect at that local instant. -/
def utcEquivalent (d : PyDatetime) : PyDatetime :=
  addMinutes d (laOffsetMinutes d)

/-- Decimal value of a digit character. -/
def charVal (c : Char) : Nat :=
  c.toNat - 48

/-- Parser for the `"%Y%m%dT%H:%M-0000"` timestamp format: accepts exactly
the strings of shape `YYYYMMDDTHH:MM-0000` and returns the denoted
datetime (seconds 0). -/
def parseUTCFmt (s : String) : Option PyDatetime :=
  match s.data with
  | [y1, y2, y3, y4, mo1, mo2, d1, d2, t, h1, h2, c, mi1, mi2, da, z1, z2, z3, z4] =>
    if y1.isDigit ∧ y2.isDigit ∧ y3.isDigit ∧ y4.isDigit ∧ mo1.isDigit ∧
        mo2.isDigit ∧ d1.isDigit ∧ d2.isDigit ∧ h1.isDigit ∧ h2.isDigit ∧
        mi1.isDigit ∧ mi2.isDigit ∧ t = 'T' ∧ c = ':' ∧ da = '-' ∧
        z1 = '0' ∧ z2 = '0' ∧ z3 = '0' ∧ z4 = '0' then
      some ⟨charVal y1 * 1000 + charVal y2 * 100 + charVal y3 * 10 + charVal y4,
        charVal mo1 * 10 + charVal mo2, charVal d1 * 10 + charVal d2,
        charVal h1 * 10 + charVal h2, charVal mi1 * 10 + charVal mi2, 0⟩
    else none
  | _ => none

theorem daysInMonth_le (y m : Nat) : daysInMonth y m ≤ 31 := by
  unfold daysInMonth
  split
  · split <;> omega
  · split <;> omega

theorem digitChar_isDigit (k : Nat) : (digitChar (k % 10)).isDigit = true := by
  have h : k % 10 = 0 ∨ k % 10 = 1 ∨ k % 10 = 2 ∨ k % 10 = 3 ∨ k % 10 = 4 ∨
      k % 10 = 5 ∨ k % 10 = 6 ∨ k % 10 = 7 ∨ k % 10 = 8 ∨ k % 10 = 9 := by omega
  rcases h with h | h | h | h | h | h | h | h | h | h <;> rw [h] <;> decide

theorem charVal_digitChar (k : Nat) : charVal (digitChar (k % 10)) = k % 10 := by
  have h : k % 10 = 0 ∨ k % 10 = 1 ∨ k % 10 = 2 ∨ k % 10 = 3 ∨ k % 10 = 4 ∨
      k % 10 = 5 ∨ k % 10 = 6 ∨ k % 10 = 7 ∨ k % 10 = 8 ∨ k % 10 = 9 := by omega
  rcases h with h | h | h | h | h | h | h | h | h | h <;> rw [h] <;> decide

theorem parse_strftime (d : PyDatetime) (hy : d.year ≤ 9999) (hm : d.month < 100)
    (hd : d.day < 100) (hh : d.hour < 100) (hmin : d.minute < 100) :
    parseUTCFmt (strftimeUTCFmt d) = some (stripSec d) := by
  have hdata : (strftimeUTCFmt d).data =
      [digitChar (d.year / 1000 % 10), digitChar (d.year / 100 % 10),
       digitChar (d.year / 10 % 10), digitChar (d.year % 10),
       digitChar (d.month / 10 % 10), digitChar (d.month % 10),
       digitChar (d.day / 10 % 10), digitChar (d.day % 10), 'T',
       digitChar (d.hour / 10 % 10), digitChar (d.hour % 10), ':',
       digitChar (d.minute / 10 % 10), digitChar (d.minute % 10), '-',
       '0', '0', '0', '0'] := by
    simp [strftimeUTCFmt, pad4, pad2]
  unfold parseUTCFmt
  rw [hdata]
  dsimp only
  rw [if_pos ⟨digitChar_isDigit _, digitChar_isDigit _, digitChar_isDigit _,
    digitChar_isDigit _, digitChar_isDigit _, digitChar_isDigit _,
    digitChar_isDigit _, digitChar_isDigit _, digitChar_isDigit _,
    digitChar_isDigit _, digitChar_isDigit _, digitChar_isDigit _,
    rfl, rfl, rfl, rfl, rfl, rfl, rfl⟩]
  refine congrArg some ?_
  simp only [charVal_digitChar]
  show PyDatetime.mk _ _ _ _ _ 0 = stripSec d
  unfold stripSec
  rw [PyDatetime.mk.injEq]
  refine ⟨by omega, by omega, by omega, by omega, by omega, rfl⟩

/-- C5: for a naive datetime `dt` (within the post-2007 DST-rule era the
model covers), `Oasis._get_UTC_string(dt)` interprets `dt` as local time in
America/Los_Angeles — applying the UTC offset in effect at that instant,
daylight-saving shifts included — and returns its UTC equivalent formatted
as `"%Y%m%dT%H:%M-0000"`: the returned string parses back (in that exact
format) to the datetime obtained by shifting `dt` by the offset in effect
(420 minutes under daylight time, 480 under standard time). -/
theorem get_UTC_string_is_utc_equivalent (d : PyDatetime) (h : d.valid)
    (h2007 : 2007 ≤ d.year) (hroom : d.year ≤ 9998) :
    parseUTCFmt (get_UTC_string d) = some (stripSec (utcEquivalent d)) ∧
      absMinutes (utcEquivalent d) = absMinutes d + laOffsetMinutes d ∧
      (utcEquivalent d).second = d.second ∧
      (pytzIsDstLA d = true → laOffsetMinutes d = 420) ∧
      (pytzIsDstLA d = false → laOffsetMinutes d = 480) := by
  have hofs : laOffsetMinutes d ≤ 480 := by
    unfold laOffsetMinutes
    split <;> omega
  obtain ⟨hy1, hy2, hm1, hm2, hd1, hd2, hh, hmin, hs⟩ := h
  have hspec := addMinutes_spec d (laOffsetMinutes d)
    ⟨hy1, hy2, hm1, hm2, hd1, hd2, hh, hmin, hs⟩ (by omega)
  have he : astimezoneUTC (localizeLA d) = utcEquivalent d := by
    unfold astimezoneUTC localizeLA utcEquivalent
    dsimp only
    have ht : (-(-((laOffsetMinutes d : Nat) : Int))).toNat = laOffsetMinutes d := by
      omega
    rw [ht]
  obtain ⟨⟨v1, v2, v3, v4, v5, v6, v7, v8, v9⟩, habs, hsec, -⟩ := hspec
  refine ⟨?_, habs, hsec, fun hdst => by simp [laOffsetMinutes, hdst],
    fun hdst => by simp [laOffsetMinutes, hdst]⟩
  unfold get_UTC_string
  rw [he]
  have w2 : (utcEquivalent d).year ≤ 9999 := v2
  have w4 : (utcEquivalent d).month ≤ 12 := v4
  have w6 : (utcEquivalent d).day ≤ daysInMonth (utcEquivalent d).year (utcEquivalent d).month := v6
  have w7 : (utcEquivalent d).hour < 24 := v7
  have w8 : (utcEquivalent d).minute < 60 := v8
  have wdm := daysInMonth_le (utcEquivalent d).year (utcEquivalent d).month
  exact parse_strftime (utcEquivalent d) w2 (by omega) (by omega) (by omega) (by omega)

/-- Witness for `get_UTC_string_is_utc_equivalent` at a concrete summer
(PDT) datetime. -/
theorem get_UTC_string_is_utc_equivalent_witness :
    (PyDatetime.mk 2021 7 1 12 0 0).valid ∧ 2007 ≤ 2021 ∧ (2021 : Nat) ≤ 9998 ∧
      (parseUTCFmt (get_UTC_string ⟨2021, 7, 1, 12, 0, 0⟩) =
          some (stripSec (utcEquivalent ⟨2021, 7, 1, 12, 0, 0⟩)) ∧
        absMinutes (utcEquivalent ⟨2021, 7, 1, 12, 0, 0⟩) =
          absMinutes ⟨2021, 7, 1, 12, 0, 0⟩ +
            laOffsetMinutes ⟨2021, 7, 1, 12, 0, 0⟩ ∧
        (utcEquivalent ⟨2021, 7, 1, 12, 0, 0⟩).second =
          (PyDatetime.mk 2021 7 1 12 0 0).second ∧
        (pytzIsDstLA ⟨2021, 7, 1, 12, 0, 0⟩ = true →
          laOffsetMinutes ⟨2021, 7, 1, 12, 0, 0⟩ = 420) ∧
        (pytzIsDstLA ⟨2021, 7, 1, 12, 0, 0⟩ = false →
          laOffsetMinutes ⟨2021, 7, 1, 12, 0, 0⟩ = 480)) :=
  ⟨by decide, by omega, by omega,
    get_UTC_string_is_utc_equivalent ⟨2021, 7, 1, 12, 0, 0⟩ (by decide) (by decide)
      (by decide)⟩

/-- C1: `Oasis._validate_date_range(start, end)` raises `BadDateRangeError`
exactly when start is after end, or start is after the current time, or end
is after the current time, or start and end fall on the same calendar date;
otherwise it returns normally. -/
theorem validate_date_range_raises_iff (now start end_ : PyDatetime) :
    (validate_date_range now start end_).isSome = true ↔
      (start.gt end_ = true ∨ start.gt now = true ∨ end_.gt now = true ∨
        start.datePart = end_.datePart) :=
  validate_raises_iff_aux now start end_

/-- A CSV report file: a header line of column names and data rows. -/
structure CsvFile where
  header : List String
  rows : List (List String)
  deriving Repr, DecidableEq

/-- The body of an HTTP response, as seen by `zipfile.ZipFile`: either not a
valid zip archive, or an archive with named member files (here: CSV
reports), listed in `namelist()` order. -/
inductive Body
  | badZip
  | zip (members : List (String × CsvFile))
  deriving Repr, DecidableEq

/-- An HTTP response: status code, the `content-disposition` header, and the
body. -/
structure HttpResponse where
  status : Nat
  contentDisposition : String
  body : Body
  deriving Repr, DecidableEq

/-- The Python exceptions the embedded code can raise. -/
inductive PyError
  | httpError
  | noDataAvailableError
  | badDateRangeError (msg : String)
  | valueError (msg : String)
  | unboundLocalError
  deriving Repr, DecidableEq

/-- Whether `t` is a suffix of `s`. -/
def strEndsWith (s t : String) : Bool :=
  t.data.isSuffixOf s.data

/-- Embedding of `re.search(r"\.xml\.zip;$", headers)` being truthy: without
`re.MULTILINE`, `$` matches at the end of the string or just before a
newline at the end of the string, so the search succeeds exactly when the
string ends with `".xml.zip;"` or with `".xml.zip;\n"`. -/
def reSearchXmlZipDollar (s : String) : Bool :=
  strEndsWith s ".xml.zip;" || strEndsWith s ".xml.zip;\n"

/-- Embedding of `Oasis.request(params)` applied to the response the server
returned: `raise_for_status()` raises for status codes ≥ 400; then
`NoDataAvailableError` is raised when the content-disposition matches the
regex; otherwise the response is returned unchanged. -/
def Oasis.request (resp : HttpResponse) : Except PyError HttpResponse :=
  if 400 ≤ resp.status then .error .httpError
  else if reSearchXmlZipDollar resp.contentDisposition then
    .error .noDataAvailableError
  else .ok resp

/-- A pandas DataFrame, modelled row-oriented: ordered column labels and
rows of cells, where a `none` cell is a missing value (NaN). -/
structure DataFrame where
  cols : List String
  rows : List (List (Option String))
  deriving Repr, DecidableEq

/-- The fixed 16-column output schema of `Oasis.get_df`. -/
def CSV_COLUMNS : List String :=
  ["INTERVALSTARTTIME_GMT", "INTERVALENDTIME_GMT", "OPR_DT", "OPR_HR",
   "OPR_INTERVAL", "NODE_ID_XML", "NODE_ID", "NODE", "MARKET_RUN_ID",
   "LMP_TYPE", "XML_DATA_ITEM", "PNODE_RESMRID", "GRP_TYPE", "POS", "MW",
   "GROUP"]

/-- Index of the first column named `c`, the lookup `pandas` performs on a
(mangled, hence duplicate-free) column axis. -/
def colIndex : List String → String → Option Nat
  | [], _ => none
  | x :: xs, c => if x = c then some 0 else (colIndex xs c).map (· + 1)

/-- The cell of `row` under column label `c` (missing column or short row
gives a missing value). -/
def rowCell (cols : List String) (row : List (Option String)) (c : String) :
    Option String :=
  match colIndex cols c with
  | none => none
  | some j => (row.get? j).getD none

/-- Embedding of `pd.read_csv` on a csv member: header names become the
columns, data cells are present values.  (`parse_dates` only re-types
column values; cell identity, not value typing, is what the claims are
about, so it is not modelled further.) -/
def read_csv (c : CsvFile) : DataFrame :=
  ⟨c.header, c.rows.map (fun r => r.map some)⟩

/-- The column relabelling of `df.rename(columns={"PRC": "MW"})`. -/
def renameCol (c : String) : String :=
  if c = "PRC" then "MW" else c

/-- Embedding of `df.rename(columns={"PRC": "MW"})`. -/
def renamePRCtoMW (df : DataFrame) : DataFrame :=
  { df with cols := df.cols.map renameCol }

/-- Cell order: missing values first, then string order (a deterministic
stand-in for the value order pandas sorts by). -/
def cellLe (a b : Option String) : Bool :=
  match a, b with
  | none, _ => true
  | some _, none => false
  | some x, some y => x ≤ y

/-- Lexicographic order on sort keys. -/
def keyLe : List (Option String) → List (Option String) → Bool
  | [], _ => true
  | _ :: _, [] => false
  | a :: as, b :: bs => if a = b then keyLe as bs else cellLe a b

/-- The sort key of a row for `sort_values(sv)`. -/
def sortKey (cols : List String) (sv : List String)
    (row : List (Option String)) : List (Option String) :=
  sv.map (rowCell cols row)

/-- Insert a row into a key-sorted list of rows. -/
def insertRowSorted (cols : List String) (sv : List String)
    (r : List (Option String)) :
    List (List (Option String)) → List (List (Option String))
  | [] => [r]
  | x :: xs =>
    if keyLe (sortKey cols sv r) (sortKey cols sv x) then r :: x :: xs
    else x :: insertRowSorted cols sv r xs

/-- Sort rows by the `sort_values` key (insertion sort). -/
def sortRows (cols : List String) (sv : List String) :
    List (List (Option String)) → List (List (Option String))
  | [] => []
  | r :: rs => insertRowSorted cols sv r (sortRows cols sv rs)

/-- Embedding of `df.sort_values(sv).reset_index(drop=True)`
(`reset_index(drop=True)` renumbers the positional index, a no-op in this
model). -/
def sort_values_reset (sv : List String) (df : DataFrame) : DataFrame :=
  { df with rows := sortRows df.cols sv df.rows }

/-- Embedding of `df.reindex(columns=cols2)`: the result has exactly the
columns `cols2`, taking each from `df` when present and filling missing
values otherwise. -/
def reindex (cols2 : List String) (df : DataFrame) : DataFrame :=
  ⟨cols2, df.rows.map (fun r => cols2.map (fun c => rowCell df.cols r c))⟩

/-- Embedding of `Oasis.get_df(response, parse_dates, sort_values)` as a
function of the response body.  A body that is not a valid zip archive
makes `zipfile.ZipFile` raise `BadZipFile`, which is caught and printed;
the `finally:` block then evaluates `df.rename(...)` with the local `df`
never assigned, raising `UnboundLocalError`.  An empty archive makes
`z.namelist()[0]` raise `IndexError`, and the `finally:` block again
raises `UnboundLocalError` (which supersedes the `IndexError` in flight).
Otherwise only the first member of the archive is parsed. -/
def Oasis.get_df (body : Body) (parse_dates : Option (List Nat))
    (sort_values : Option (List String)) : Except PyError DataFrame :=
  match body with
  | .badZip => .error .unboundLocalError
  | .zip [] => .error .unboundLocalError
  | .zip (m :: _) =>
    let df0 := read_csv m.2
    let df1 := match sort_values with
      | some sv => sort_values_reset sv df0
      | none => df0
    let df2 := renamePRCtoMW df1
    .ok (reindex CSV_COLUMNS df2)

/-- A request parameter value: Python passes strings and ints. -/
inductive PVal
  | s (v : String)
  | n (v : Nat)
  deriving Repr, DecidableEq

/-- The `params` dict of a request, in insertion order. -/
abbrev Params := List (String × PVal)

/-- A CAISO pricing node (`Node(node)` stores the node identifier). -/
structure Node where
  node : String
  deriving Repr, DecidableEq

/-- `Node.SP15()`. -/
def Node.SP15 : Node := ⟨"TH_SP15_GEN-APND"⟩

/-- `Node.NP15()`. -/
def Node.NP15 : Node := ⟨"TH_NP15_GEN-APND"⟩

/-- `Node.ZP26()`. -/
def Node.ZP26 : Node := ⟨"TH_ZP26_GEN-APND"⟩

/-- `Node.SCEDLAP()`. -/
def Node.SCEDLAP : Node := ⟨"DLAP_SCE-APND"⟩

/-- `Node.PGAEDLAP()`. -/
def Node.PGAEDLAP : Node := ⟨"DLAP_PGAE-APND"⟩

/-- `Node.SDGEDLAP()`. -/
def Node.SDGEDLAP : Node := ⟨"DLAP_SDGE-APND"⟩

/-- The `query_mapping` dict lookup of `Node.get_lmps`. -/
def query_mapping (market : String) : Option String :=
  if market = "DAM" then some "PRC_LMP"
  else if market = "RTM" then some "PRC_INTVL_LMP"
  else if market = "RTPD" then some "PRC_RTPD_LMP"
  else none

/-- The tail of `Node.get_lmps` after the params are built: issue the
request and convert the response with `parse_dates=[2]`,
`sort_values=["OPR_DT", "OPR_HR"]`. -/
def lmpsPostProcess (resp : HttpResponse) : Except PyError DataFrame :=
  match Oasis.request resp with
  | .error e => .error e
  | .ok r => Oasis.get_df r.body (some [2]) (some ["OPR_DT", "OPR_HR"])

/-- Request-and-convert with `get_df`'s default arguments, the tail of
`Atlas.get_pnodes` and both `SystemDemand` methods. -/
def defaultPostProcess (resp : HttpResponse) : Except PyError DataFrame :=
  match Oasis.request resp with
  | .error e => .error e
  | .ok r => Oasis.get_df r.body none none

/-- Embedding of `Node.get_lmps(start, end, market)`.  `now` stands for
`datetime.now()` and `fetch` for the HTTP layer.  Mirrors the statement
order of the source: default the end date, validate the date range, check
the market, build the params dict, request, convert. -/
def Node.get_lmps (nd : Node) (start : PyDatetime) (end? : Option PyDatetime)
    (market : String) (now : PyDatetime) (fetch : Params → HttpResponse) :
    Except PyError DataFrame :=
  let end_ := match end? with
    | none => addDaysNat 1 start
    | some e => e
  match validate_date_range now start end_ with
  | some msg => .error (.badDateRangeError msg)
  | none =>
    match query_mapping market with
    | none => .error (.valueError "market must be 'DAM', 'RTM' or 'RTPD'")
    | some qn =>
      lmpsPostProcess (fetch
        [("queryname", .s qn), ("market_run_id", .s market),
         ("startdatetime", .s (get_UTC_string start)),
         ("enddatetime", .s (get_UTC_string end_)),
         ("version", .n 1), ("node", .s nd.node), ("resultformat", .n 6)])

/-- Embedding of `start + relativedelta(months=1)`: step to the next month
(rolling into the next year after December) and clamp the day to the length
of the target month. -/
def relativedeltaMonths1 (d : PyDatetime) : PyDatetime :=
  let y := if d.month = 12 then d.year + 1 else d.year
  let m := if d.month = 12 then 1 else d.month + 1
  { d with year := y, month := m, day := min d.day (daysInMonth y m) }

/-- Embedding of `Node.get_month_lmps(year, month)`: build
`start = datetime(year, month, 1)`, `end = start + relativedelta(months=1)`
and delegate to `get_lmps` (market keeps its default `"DAM"`). -/
def Node.get_month_lmps (nd : Node) (year month : Nat) (now : PyDatetime)
    (fetch : Params → HttpResponse) : Except PyError DataFrame :=
  let start : PyDatetime := ⟨year, month, 1, 0, 0, 0⟩
  let end_ := relativedeltaMonths1 start
  nd.get_lmps start (some end_) "DAM" now fetch

/-- The first day of the month after month `m` of year `y`: the spec's
"`datetime(year, month, 1)` plus one calendar month". -/
def oneMonthLater (y m : Nat) : PyDatetime :=
  if m = 12 then ⟨y + 1, 1, 1, 0, 0, 0⟩ else ⟨y, m + 1, 1, 0, 0, 0⟩

/-- Embedding of `Atlas().get_pnodes(start, end)`: validates the date range,
then requests the `ATL_PNODE` listing and converts it with `get_df`'s
defaults. -/
def Atlas.get_pnodes (start end_ : PyDatetime) (now : PyDatetime)
    (fetch : Params → HttpResponse) : Except PyError DataFrame :=
  match validate_date_range now start end_ with
  | some msg => .error (.badDateRangeError msg)
  | none =>
    defaultPostProcess (fetch
      [("queryname", .s "ATL_PNODE"),
       ("startdatetime", .s (get_UTC_string start)),
       ("enddatetime", .s (get_UTC_string end_)),
       ("Pnode_type", .s "ALL"), ("version", .n 1), ("resultformat", .n 6)])

/-- Embedding of `SystemDemand().get_peak_demand_forecast(start, end)`.
The source performs no date-range validation here: the params are built and
the request issued directly (hence no `now` parameter is even needed). -/
def SystemDemand.get_peak_demand_forecast (start end_ : PyDatetime)
    (fetch : Params → HttpResponse) : Except PyError DataFrame :=
  defaultPostProcess (fetch
    [("queryname", .s "SLD_FCST_PEAK"),
     ("startdatetime", .s (get_UTC_string start)),
     ("enddatetime", .s (get_UTC_string end_)),
     ("version", .n 1), ("resultformat", .n 6)])

/-- Embedding of `SystemDemand().get_demand_forecast(start, end)`.  As with
the peak variant, the source performs no date-range validation. -/
def SystemDemand.get_demand_forecast (start end_ : PyDatetime)
    (fetch : Params → HttpResponse) : Except PyError DataFrame :=
  defaultPostProcess (fetch
    [("queryname", .s "SLD_FCST"),
     ("startdatetime", .s (get_UTC_string start)),
     ("enddatetime", .s (get_UTC_string end_)),
     ("version", .n 1), ("resultformat", .n 6)])

theorem strEndsWith_iff (s t : String) :
    strEndsWith s t = true ↔ t.data <:+ s.data := by
  unfold strEndsWith
  exact List.isSuffixOf_iff_suffix

/-- C6: `Oasis.get_df` parses only the first member file of the archive;
the other member files have no effect on the result. -/
theorem get_df_uses_only_first_member (m : String × CsvFile)
    (rest rest' : List (String × CsvFile)) (pd : Option (List Nat))
    (sv : Option (List String)) :
    Oasis.get_df (Body.zip (m :: rest)) pd sv
      = Oasis.get_df (Body.zip (m :: rest')) pd sv := rfl

/-- C10: on a body that is not a valid zip archive, `Oasis.get_df` raises
`UnboundLocalError` (the `BadZipFile` handler leaves `df` unbound and the
`finally:` rename trips over it) — in particular it neither returns a
DataFrame nor raises `NoDataAvailableError`/`BadDateRangeError`; and the
DataFrame-returning path is reachable only from a valid, nonempty zip
archive. -/
theorem get_df_requires_valid_zip :
    (∀ pd sv, Oasis.get_df Body.badZip pd sv
        = Except.error PyError.unboundLocalError) ∧
      (∀ body pd sv df, Oasis.get_df body pd sv = Except.ok df →
        ∃ m rest, body = Body.zip (m :: rest)) := by
  refine ⟨fun pd sv => rfl, fun body pd sv df h => ?_⟩
  cases body with
  | badZip => exact absurd h (by simp [Oasis.get_df])
  | zip ms =>
    cases ms with
    | nil => exact absurd h (by simp [Oasis.get_df])
    | cons m rest => exact ⟨m, rest, rfl⟩

/-- Witness for `get_df_requires_valid_zip` at a concrete one-member
archive. -/
theorem get_df_requires_valid_zip_witness :
    ∃ m rest, Body.zip [("report.csv", CsvFile.mk [] [])]
      = Body.zip (m :: rest) :=
  get_df_requires_valid_zip.2 (Body.zip [("report.csv", ⟨[], []⟩)]) none none
    ⟨CSV_COLUMNS, []⟩ rfl

/-- C3 counterexample: a sub-400 response whose content-disposition header
ends in `".xml.zip;\n"` does not end with the suffix `".xml.zip;"`, yet
`Oasis.request` still raises `NoDataAvailableError`, because Python's `$`
also matches just before a trailing newline. -/
theorem request_counterexample_trailing_newline :
    Oasis.request ⟨200, "inline; filename=x.xml.zip;\n", Body.zip []⟩
        = Except.error PyError.noDataAvailableError ∧
      strEndsWith "inline; filename=x.xml.zip;\n" ".xml.zip;" = false := by
  constructor
  · rfl
  · rfl

/-- C3 (amended): for a response with status < 400, `Oasis.request` raises
`NoDataAvailableError` exactly when the content-disposition header ends
with `".xml.zip;"` or with `".xml.zip;\n"` (the trailing-newline case added
by the semantics of `$` in `re.search`), and otherwise returns the response
unchanged. -/
theorem request_nodata_iff (resp : HttpResponse) (hs : resp.status < 400) :
    (Oasis.request resp = Except.error PyError.noDataAvailableError ↔
        (strEndsWith resp.contentDisposition ".xml.zip;" = true ∨
          strEndsWith resp.contentDisposition ".xml.zip;\n" = true)) ∧
      (¬(strEndsWith resp.contentDisposition ".xml.zip;" = true ∨
          strEndsWith resp.contentDisposition ".xml.zip;\n" = true) →
        Oasis.request resp = Except.ok resp) := by
  unfold Oasis.request reSearchXmlZipDollar
  rw [if_neg (by omega)]
  by_cases h1 : strEndsWith resp.contentDisposition ".xml.zip;" = true <;>
    by_cases h2 : strEndsWith resp.contentDisposition ".xml.zip;\n" = true <;>
      simp [h1, h2]

/-- Witness for `request_nodata_iff` at a concrete genuine-payload
response. -/
theorem request_nodata_iff_witness :
    (HttpResponse.mk 200 "inline; filename=r.csv.zip;" Body.badZip).status
        < 400 ∧
      ((Oasis.request ⟨200, "inline; filename=r.csv.zip;", Body.badZip⟩
            = Except.error PyError.noDataAvailableError ↔
          (strEndsWith "inline; filename=r.csv.zip;" ".xml.zip;" = true ∨
            strEndsWith "inline; filename=r.csv.zip;" ".xml.zip;\n" = true)) ∧
        (¬(strEndsWith "inline; filename=r.csv.zip;" ".xml.zip;" = true ∨
            strEndsWith "inline; filename=r.csv.zip;" ".xml.zip;\n" = true) →
          Oasis.request ⟨200, "inline; filename=r.csv.zip;", Body.badZip⟩
            = Except.ok ⟨200, "inline; filename=r.csv.zip;", Body.badZip⟩)) :=
  ⟨by decide,
    request_nodata_iff ⟨200, "inline; filename=r.csv.zip;", Body.badZip⟩
      (by decide)⟩

theorem defaultPostProcess_not_dateerror (resp : HttpResponse) (msg : String) :
    defaultPostProcess resp ≠ Except.error (PyError.badDateRangeError msg) := by
  unfold defaultPostProcess Oasis.request
  by_cases h1 : 400 ≤ resp.status
  · simp [h1]
  · by_cases h2 : reSearchXmlZipDollar resp.contentDisposition = true
    · simp [h1, h2]
    · simp only [h1, h2, if_false, Bool.false_eq_true, if_neg]
      simp [h1, h2]
      cases hb : resp.body with
      | badZip => simp [Oasis.get_df]
      | zip ms =>
        cases ms with
        | nil => simp [Oasis.get_df]
        | cons m rest => simp [Oasis.get_df]

/-- C2 counterexample: for the invalid range start 2021-01-02, end
2021-01-01 (inverted and in the future relative to `now` = 2020-01-02),
`SystemDemand.get_demand_forecast` does not raise `BadDateRangeError`: it
issues the request and returns the parsed DataFrame. -/
theorem systemdemand_skips_validation_counterexample :
    (validate_date_range ⟨2020, 1, 2, 0, 0, 0⟩ ⟨2021, 1, 2, 0, 0, 0⟩
        ⟨2021, 1, 1, 0, 0, 0⟩).isSome = true ∧
      SystemDemand.get_demand_forecast ⟨2021, 1, 2, 0, 0, 0⟩
          ⟨2021, 1, 1, 0, 0, 0⟩
          (fun _ => ⟨200, "inline; filename=r.csv.zip;",
            Body.zip [("r.csv", ⟨[], []⟩)]⟩)
        = Except.ok ⟨CSV_COLUMNS, []⟩ :=
  ⟨rfl, rfl⟩

/-- C2 (amended): `Node.get_lmps` and `Atlas.get_pnodes` validate the
caller-supplied date range and raise `BadDateRangeError` before issuing any
HTTP request (their result on an invalid range does not depend on the HTTP
layer), but the two `SystemDemand` operations perform no date-range
validation and can never raise `BadDateRangeError`. -/
theorem date_validation_coverage (nd : Node) (start end_ now : PyDatetime)
    (market : String) (fetch fetch' : Params → HttpResponse)
    (hbad : (validate_date_range now start end_).isSome = true) :
    (∃ msg, validate_date_range now start end_ = some msg ∧
        nd.get_lmps start (some end_) market now fetch
          = Except.error (PyError.badDateRangeError msg) ∧
        Atlas.get_pnodes start end_ now fetch
          = Except.error (PyError.badDateRangeError msg)) ∧
      nd.get_lmps start (some end_) market now fetch
        = nd.get_lmps start (some end_) market now fetch' ∧
      Atlas.get_pnodes start end_ now fetch
        = Atlas.get_pnodes start end_ now fetch' ∧
      (∀ msg, SystemDemand.get_peak_demand_forecast start end_ fetch
        ≠ Except.error (PyError.badDateRangeError msg)) ∧
      (∀ msg, SystemDemand.get_demand_forecast start end_ fetch
        ≠ Except.error (PyError.badDateRangeError msg)) := by
  cases hv : validate_date_range now start end_ with
  | none =>
    rw [hv] at hbad
    simp at hbad
  | some msg =>
    refine ⟨⟨msg, rfl, ?_, ?_⟩, ?_, ?_,
      fun m => defaultPostProcess_not_dateerror _ m,
      fun m => defaultPostProcess_not_dateerror _ m⟩
    · simp [Node.get_lmps, hv]
    · simp [Atlas.get_pnodes, hv]
    · simp [Node.get_lmps, hv]
    · simp [Atlas.get_pnodes, hv]

/-- Witness for `date_validation_coverage` at the concrete invalid range
start 2021-01-02 > end 2021-01-01 with `now` = 2020-01-02. -/
theorem date_validation_coverage_witness :
    (validate_date_range ⟨2020, 1, 2, 0, 0, 0⟩ ⟨2021, 1, 2, 0, 0, 0⟩
          ⟨2021, 1, 1, 0, 0, 0⟩).isSome = true ∧
      ((∃ msg, validate_date_range ⟨2020, 1, 2, 0, 0, 0⟩ ⟨2021, 1, 2, 0, 0, 0⟩
            ⟨2021, 1, 1, 0, 0, 0⟩ = some msg ∧
          Node.get_lmps ⟨"CAPTJACK_5_N003"⟩ ⟨2021, 1, 2, 0, 0, 0⟩
              (some ⟨2021, 1, 1, 0, 0, 0⟩) "DAM" ⟨2020, 1, 2, 0, 0, 0⟩
              (fun _ => ⟨200, "inline; filename=r.csv.zip;",
                Body.zip [("r.csv", ⟨[], []⟩)]⟩)
            = Except.error (PyError.badDateRangeError msg) ∧
          Atlas.get_pnodes ⟨2021, 1, 2, 0, 0, 0⟩ ⟨2021, 1, 1, 0, 0, 0⟩
              ⟨2020, 1, 2, 0, 0, 0⟩
              (fun _ => ⟨200, "inline; filename=r.csv.zip;",
                Body.zip [("r.csv", ⟨[], []⟩)]⟩)
            = Except.error (PyError.badDateRangeError msg)) ∧
        Node.get_lmps ⟨"CAPTJACK_5_N003"⟩ ⟨2021, 1, 2, 0, 0, 0⟩
            (some ⟨2021, 1, 1, 0, 0, 0⟩) "DAM" ⟨2020, 1, 2, 0, 0, 0⟩
            (fun _ => ⟨200, "inline; filename=r.csv.zip;",
              Body.zip [("r.csv", ⟨[], []⟩)]⟩)
          = Node.get_lmps ⟨"CAPTJACK_5_N003"⟩ ⟨2021, 1, 2, 0, 0, 0⟩
            (some ⟨2021, 1, 1, 0, 0, 0⟩) "DAM" ⟨2020, 1, 2, 0, 0, 0⟩
            (fun _ => ⟨404, "x", Body.badZip⟩) ∧
        Atlas.get_pnodes ⟨2021, 1, 2, 0, 0, 0⟩ ⟨2021, 1, 1, 0, 0, 0⟩
            ⟨2020, 1, 2, 0, 0, 0⟩
            (fun _ => ⟨200, "inline; filename=r.csv.zip;",
              Body.zip [("r.csv", ⟨[], []⟩)]⟩)
          = Atlas.get_pnodes ⟨2021, 1, 2, 0, 0, 0⟩ ⟨2021, 1, 1, 0, 0, 0⟩
            ⟨2020, 1, 2, 0, 0, 0⟩ (fun _ => ⟨404, "x", Body.badZip⟩) ∧
        (∀ msg, SystemDemand.get_peak_demand_forecast ⟨2021, 1, 2, 0, 0, 0⟩
            ⟨2021, 1, 1, 0, 0, 0⟩
            (fun _ => ⟨200, "inline; filename=r.csv.zip;",
              Body.zip [("r.csv", ⟨[], []⟩)]⟩)
          ≠ Except.error (PyError.badDateRangeError msg)) ∧
        (∀ msg, SystemDemand.get_demand_forecast ⟨2021, 1, 2, 0, 0, 0⟩
            ⟨2021, 1, 1, 0, 0, 0⟩
            (fun _ => ⟨200, "inline; filename=r.csv.zip;",
              Body.zip [("r.csv", ⟨[], []⟩)]⟩)
          ≠ Except.error (PyError.badDateRangeError msg))) :=
  ⟨rfl, date_validation_coverage ⟨"CAPTJACK_5_N003"⟩ ⟨2021, 1, 2, 0, 0, 0⟩
    ⟨2021, 1, 1, 0, 0, 0⟩ ⟨2020, 1, 2, 0, 0, 0⟩ "DAM"
    (fun _ => ⟨200, "inline; filename=r.csv.zip;",
      Body.zip [("r.csv", ⟨[], []⟩)]⟩)
    (fun _ => ⟨404, "x", Body.badZip⟩) rfl⟩

theorem relativedeltaMonths1_first (y m : Nat) (h1 : 1 ≤ m) (h2 : m ≤ 12) :
    relativedeltaMonths1 ⟨y, m, 1, 0, 0, 0⟩ = oneMonthLater y m := by
  unfold relativedeltaMonths1 oneMonthLater
  by_cases hm : m = 12
  · have h28 := daysInMonth_ge (y + 1) 1
    simp [hm, Nat.min_eq_left (by omega : 1 ≤ daysInMonth (y + 1) 1)]
  · have h28 := daysInMonth_ge y (m + 1)
    simp [hm, Nat.min_eq_left (by omega : 1 ≤ daysInMonth y (m + 1))]

/-- C7: `Node.get_month_lmps(year, month)` is pure parameter plumbing over
`get_lmps`: it equals `get_lmps(datetime(year, month, 1),
datetime(year, month, 1) + one calendar month)` with the default market
`"DAM"`. -/
theorem get_month_lmps_is_plumbing (nd : Node) (y m : Nat) (now : PyDatetime)
    (fetch : Params → HttpResponse) (h1 : 1 ≤ m) (h2 : m ≤ 12) :
    nd.get_month_lmps y m now fetch
      = nd.get_lmps ⟨y, m, 1, 0, 0, 0⟩ (some (oneMonthLater y m)) "DAM" now
          fetch := by
  unfold Node.get_month_lmps
  dsimp only
  rw [relativedeltaMonths1_first y m h1 h2]

/-- Witness for `get_month_lmps_is_plumbing` at June 2021. -/
theorem get_month_lmps_is_plumbing_witness :
    (1 : Nat) ≤ 6 ∧ (6 : Nat) ≤ 12 ∧
      Node.get_month_lmps ⟨"CAPTJACK_5_N003"⟩ 2021 6 ⟨2021, 7, 5, 0, 0, 0⟩
          (fun _ => ⟨200, "inline; filename=r.csv.zip;",
            Body.zip [("r.csv", ⟨[], []⟩)]⟩)
        = Node.get_lmps ⟨"CAPTJACK_5_N003"⟩ ⟨2021, 6, 1, 0, 0, 0⟩
            (some (oneMonthLater 2021 6)) "DAM" ⟨2021, 7, 5, 0, 0, 0⟩
            (fun _ => ⟨200, "inline; filename=r.csv.zip;",
              Body.zip [("r.csv", ⟨[], []⟩)]⟩) :=
  ⟨by decide, by decide,
    get_month_lmps_is_plumbing ⟨"CAPTJACK_5_N003"⟩ 2021 6 ⟨2021, 7, 5, 0, 0, 0⟩
      (fun _ => ⟨200, "inline; filename=r.csv.zip;",
        Body.zip [("r.csv", ⟨[], []⟩)]⟩) (by decide) (by decide)⟩

theorem nextDate_changes_date (d : PyDatetime) (h : d.valid) :
    (nextDate d).datePart ≠ d.datePart := by
  obtain ⟨hy1, hy2, hm1, hm2, hd1, hd2, -⟩ := h
  intro hq
  unfold nextDate PyDatetime.datePart at hq
  split at hq <;> [skip; split at hq] <;>
    simp only [Prod.mk.injEq] at hq <;> omega

/-- C9: calling `Node.get_lmps` with the end argument omitted behaves
exactly as calling it with `end = start + timedelta(days=1)`; that default
is substituted before validation, the defaulted end falls on a different
calendar date than `start`, and the validation outcome therefore reduces to
the three non-same-date checks. -/
theorem get_lmps_default_end (nd : Node) (start : PyDatetime) (market : String)
    (now : PyDatetime) (fetch : Params → HttpResponse) (h : start.valid) :
    nd.get_lmps start none market now fetch
        = nd.get_lmps start (some (addDaysNat 1 start)) market now fetch ∧
      (addDaysNat 1 start).datePart ≠ start.datePart ∧
      ((validate_date_range now start (addDaysNat 1 start)).isSome = true ↔
        (start.gt (addDaysNat 1 start) = true ∨ start.gt now = true ∨
          (addDaysNat 1 start).gt now = true)) := by
  have e : addDaysNat 1 start = nextDate start := rfl
  have hne : (addDaysNat 1 start).datePart ≠ start.datePart := by
    rw [e]
    exact nextDate_changes_date start h
  refine ⟨rfl, hne, ?_⟩
  rw [validate_raises_iff_aux]
  have hne' : ¬(start.datePart = (addDaysNat 1 start).datePart) :=
    fun hq => hne hq.symm
  tauto

/-- Witness for `get_lmps_default_end` at 2021-01-01. -/
theorem get_lmps_default_end_witness :
    (PyDatetime.mk 2021 1 1 0 0 0).valid ∧
      (Node.get_lmps ⟨"CAPTJACK_5_N003"⟩ ⟨2021, 1, 1, 0, 0, 0⟩ none "DAM"
            ⟨2021, 1, 5, 0, 0, 0⟩
            (fun _ => ⟨200, "inline; filename=r.csv.zip;",
              Body.zip [("r.csv", ⟨[], []⟩)]⟩)
          = Node.get_lmps ⟨"CAPTJACK_5_N003"⟩ ⟨2021, 1, 1, 0, 0, 0⟩
              (some (addDaysNat 1 ⟨2021, 1, 1, 0, 0, 0⟩)) "DAM"
              ⟨2021, 1, 5, 0, 0, 0⟩
              (fun _ => ⟨200, "inline; filename=r.csv.zip;",
                Body.zip [("r.csv", ⟨[], []⟩)]⟩) ∧
        (addDaysNat 1 ⟨2021, 1, 1, 0, 0, 0⟩).datePart
          ≠ (PyDatetime.mk 2021 1 1 0 0 0).datePart ∧
        ((validate_date_range ⟨2021, 1, 5, 0, 0, 0⟩ ⟨2021, 1, 1, 0, 0, 0⟩
              (addDaysNat 1 ⟨2021, 1, 1, 0, 0, 0⟩)).isSome = true ↔
          ((PyDatetime.mk 2021 1 1 0 0 0).gt
              (addDaysNat 1 ⟨2021, 1, 1, 0, 0, 0⟩) = true ∨
            (PyDatetime.mk 2021 1 1 0 0 0).gt ⟨2021, 1, 5, 0, 0, 0⟩ = true ∨
            (addDaysNat 1 ⟨2021, 1, 1, 0, 0, 0⟩).gt ⟨2021, 1, 5, 0, 0, 0⟩
              = true))) :=
  ⟨by decide,
    get_lmps_default_end ⟨"CAPTJACK_5_N003"⟩ ⟨2021, 1, 1, 0, 0, 0⟩ "DAM"
      ⟨2021, 1, 5, 0, 0, 0⟩
      (fun _ => ⟨200, "inline; filename=r.csv.zip;",
        Body.zip [("r.csv", ⟨[], []⟩)]⟩) (by decide)⟩

/-- C8 counterexample: with an invalid date range, `Node.get_lmps` raises
`BadDateRangeError` — not `ValueError` — even for a market outside
{"DAM", "RTM", "RTPD"}, because the date-range check precedes the market
check. -/
theorem get_lmps_bad_market_counterexample :
    Node.get_lmps ⟨"CAPTJACK_5_N003"⟩ ⟨2021, 1, 2, 0, 0, 0⟩
        (some ⟨2021, 1, 1, 0, 0, 0⟩) "FOO" ⟨2020, 1, 2, 0, 0, 0⟩
        (fun _ => ⟨200, "inline; filename=r.csv.zip;",
          Body.zip [("r.csv", ⟨[], []⟩)]⟩)
      = Except.error
          (PyError.badDateRangeError "Start must be before today, 2020-01-02")
      ∧ ∀ msg, Node.get_lmps ⟨"CAPTJACK_5_N003"⟩ ⟨2021, 1, 2, 0, 0, 0⟩
          (some ⟨2021, 1, 1, 0, 0, 0⟩) "FOO" ⟨2020, 1, 2, 0, 0, 0⟩
          (fun _ => ⟨200, "inline; filename=r.csv.zip;",
            Body.zip [("r.csv", ⟨[], []⟩)]⟩)
        ≠ Except.error (PyError.valueError msg) := by
  have h1 : Node.get_lmps ⟨"CAPTJACK_5_N003"⟩ ⟨2021, 1, 2, 0, 0, 0⟩
      (some ⟨2021, 1, 1, 0, 0, 0⟩) "FOO" ⟨2020, 1, 2, 0, 0, 0⟩
      (fun _ => ⟨200, "inline; filename=r.csv.zip;",
        Body.zip [("r.csv", ⟨[], []⟩)]⟩)
      = Except.error
          (PyError.badDateRangeError
            "Start must be before today, 2020-01-02") := rfl
  refine ⟨h1, fun msg hmsg => ?_⟩
  rw [h1] at hmsg
  simp at hmsg

/-- C8 (amended): once the date range passes validation, `Node.get_lmps`
raises `ValueError` for every market outside {"DAM", "RTM", "RTPD"}, and
for each valid market issues the fixed query preset (queryname `PRC_LMP` /
`PRC_INTVL_LMP` / `PRC_RTPD_LMP`, `market_run_id` = market, the node's
identifier, version 1, resultformat 6); the six classmethod constructors
carry their fixed node identifiers. -/
theorem get_lmps_market_presets (nd : Node) (start end_ now : PyDatetime)
    (fetch : Params → HttpResponse)
    (hok : validate_date_range now start end_ = none) :
    (∀ market, market ≠ "DAM" → market ≠ "RTM" → market ≠ "RTPD" →
        nd.get_lmps start (some end_) market now fetch
          = Except.error
              (PyError.valueError "market must be 'DAM', 'RTM' or 'RTPD'")) ∧
      nd.get_lmps start (some end_) "DAM" now fetch
        = lmpsPostProcess (fetch
            [("queryname", .s "PRC_LMP"), ("market_run_id", .s "DAM"),
             ("startdatetime", .s (get_UTC_string start)),
             ("enddatetime", .s (get_UTC_string end_)),
             ("version", .n 1), ("node", .s nd.node),
             ("resultformat", .n 6)]) ∧
      nd.get_lmps start (some end_) "RTM" now fetch
        = lmpsPostProcess (fetch
            [("queryname", .s "PRC_INTVL_LMP"), ("market_run_id", .s "RTM"),
             ("startdatetime", .s (get_UTC_string start)),
             ("enddatetime", .s (get_UTC_string end_)),
             ("version", .n 1), ("node", .s nd.node),
             ("resultformat", .n 6)]) ∧
      nd.get_lmps start (some end_) "RTPD" now fetch
        = lmpsPostProcess (fetch
            [("queryname", .s "PRC_RTPD_LMP"), ("market_run_id", .s "RTPD"),
             ("startdatetime", .s (get_UTC_string start)),
             ("enddatetime", .s (get_UTC_string end_)),
             ("version", .n 1), ("node", .s nd.node),
             ("resultformat", .n 6)]) ∧
      Node.SP15.node = "TH_SP15_GEN-APND" ∧
      Node.NP15.node = "TH_NP15_GEN-APND" ∧
      Node.ZP26.node = "TH_ZP26_GEN-APND" ∧
      Node.SCEDLAP.node = "DLAP_SCE-APND" ∧
      Node.PGAEDLAP.node = "DLAP_PGAE-APND" ∧
      Node.SDGEDLAP.node = "DLAP_SDGE-APND" := by
  refine ⟨fun market h1 h2 h3 => ?_, ?_, ?_, ?_, rfl, rfl, rfl, rfl, rfl, rfl⟩
  · simp [Node.get_lmps, hok, query_mapping, h1, h2, h3]
  · simp [Node.get_lmps, hok, query_mapping]
  · simp [Node.get_lmps, hok, query_mapping]
  · simp [Node.get_lmps, hok, query_mapping]

/-- Witness for `get_lmps_market_presets` at a concrete valid range. -/
theorem get_lmps_market_presets_witness :
    validate_date_range ⟨2021, 1, 5, 0, 0, 0⟩ ⟨2021, 1, 1, 0, 0, 0⟩
        ⟨2021, 1, 3, 0, 0, 0⟩ = none ∧
      ((∀ market, market ≠ "DAM" → market ≠ "RTM" → market ≠ "RTPD" →
          Node.get_lmps ⟨"CAPTJACK_5_N003"⟩ ⟨2021, 1, 1, 0, 0, 0⟩
              (some ⟨2021, 1, 3, 0, 0, 0⟩) market ⟨2021, 1, 5, 0, 0, 0⟩
              (fun _ => ⟨200, "inline; filename=r.csv.zip;",
                Body.zip [("r.csv", ⟨[], []⟩)]⟩)
            = Except.error
                (PyError.valueError
                  "market must be 'DAM', 'RTM' or 'RTPD'")) ∧
        Node.get_lmps ⟨"CAPTJACK_5_N003"⟩ ⟨2021, 1, 1, 0, 0, 0⟩
            (some ⟨2021, 1, 3, 0, 0, 0⟩) "DAM" ⟨2021, 1, 5, 0, 0, 0⟩
            (fun _ => ⟨200, "inline; filename=r.csv.zip;",
              Body.zip [("r.csv", ⟨[], []⟩)]⟩)
          = lmpsPostProcess (((fun _ => ⟨200, "inline; filename=r.csv.zip;",
              Body.zip [("r.csv", ⟨[], []⟩)]⟩) : Params → HttpResponse)
              [("queryname", .s "PRC_LMP"), ("market_run_id", .s "DAM"),
               ("startdatetime", .s (get_UTC_string ⟨2021, 1, 1, 0, 0, 0⟩)),
               ("enddatetime", .s (get_UTC_string ⟨2021, 1, 3, 0, 0, 0⟩)),
               ("version", .n 1), ("node", .s (Node.mk "CAPTJACK_5_N003").node),
               ("resultformat", .n 6)]) ∧
        Node.get_lmps ⟨"CAPTJACK_5_N003"⟩ ⟨2021, 1, 1, 0, 0, 0⟩
            (some ⟨2021, 1, 3, 0, 0, 0⟩) "RTM" ⟨2021, 1, 5, 0, 0, 0⟩
            (fun _ => ⟨200, "inline; filename=r.csv.zip;",
              Body.zip [("r.csv", ⟨[], []⟩)]⟩)
          = lmpsPostProcess (((fun _ => ⟨200, "inline; filename=r.csv.zip;",
              Body.zip [("r.csv", ⟨[], []⟩)]⟩) : Params → HttpResponse)
              [("queryname", .s "PRC_INTVL_LMP"), ("market_run_id", .s "RTM"),
               ("startdatetime", .s (get_UTC_string ⟨2021, 1, 1, 0, 0, 0⟩)),
               ("enddatetime", .s (get_UTC_string ⟨2021, 1, 3, 0, 0, 0⟩)),
               ("version", .n 1), ("node", .s (Node.mk "CAPTJACK_5_N003").node),
               ("resultformat", .n 6)]) ∧
        Node.get_lmps ⟨"CAPTJACK_5_N003"⟩ ⟨2021, 1, 1, 0, 0, 0⟩
            (some ⟨2021, 1, 3, 0, 0, 0⟩) "RTPD" ⟨2021, 1, 5, 0, 0, 0⟩
            (fun _ => ⟨200, "inline; filename=r.csv.zip;",
              Body.zip [("r.csv", ⟨[], []⟩)]⟩)
          = lmpsPostProcess (((fun _ => ⟨200, "inline; filename=r.csv.zip;",
              Body.zip [("r.csv", ⟨[], []⟩)]⟩) : Params → HttpResponse)
              [("queryname", .s "PRC_RTPD_LMP"), ("market_run_id", .s "RTPD"),
               ("startdatetime", .s (get_UTC_string ⟨2021, 1, 1, 0, 0, 0⟩)),
               ("enddatetime", .s (get_UTC_string ⟨2021, 1, 3, 0, 0, 0⟩)),
               ("version", .n 1), ("node", .s (Node.mk "CAPTJACK_5_N003").node),
               ("resultformat", .n 6)]) ∧
        Node.SP15.node = "TH_SP15_GEN-APND" ∧
        Node.NP15.node = "TH_NP15_GEN-APND" ∧
        Node.ZP26.node = "TH_ZP26_GEN-APND" ∧
        Node.SCEDLAP.node = "DLAP_SCE-APND" ∧
        Node.PGAEDLAP.node = "DLAP_PGAE-APND" ∧
        Node.SDGEDLAP.node = "DLAP_SDGE-APND") :=
  ⟨rfl, get_lmps_market_presets ⟨"CAPTJACK_5_N003"⟩ ⟨2021, 1, 1, 0, 0, 0⟩
    ⟨2021, 1, 3, 0, 0, 0⟩ ⟨2021, 1, 5, 0, 0, 0⟩
    (fun _ => ⟨200, "inline; filename=r.csv.zip;",
      Body.zip [("r.csv", ⟨[], []⟩)]⟩) rfl⟩

/-- The cell of a CSV data row under column name `c` (as `read_csv` then a
column lookup would produce it): `none` when the CSV has no such column or
the row is short. -/
def csvCell (header : List String) (row : List String) (c : String) :
    Option String :=
  match colIndex header c with
  | none => none
  | some j => row.get? j

theorem colIndex_eq_none (l : List String) (c : String) (h : c ∉ l) :
    colIndex l c = none := by
  induction l with
  | nil => rfl
  | cons x xs ih =>
    have hx : x ≠ c := fun hq => h (hq ▸ List.mem_cons_self x xs)
    have h' : c ∉ xs := fun hq => h (List.mem_cons_of_mem x hq)
    simp only [colIndex, if_neg hx, ih h', Option.map_none']

theorem colIndex_map_renameCol (l : List String) (c : String) (h1 : c ≠ "MW")
    (h2 : c ≠ "PRC") :
    colIndex (l.map renameCol) c = colIndex l c := by
  induction l with
  | nil => rfl
  | cons x xs ih =>
    simp only [List.map_cons, colIndex, ih]
    by_cases hx : x = "PRC"
    · have e : renameCol x = "MW" := by rw [hx]; rfl
      rw [e, if_neg (fun hq => h1 hq.symm),
        if_neg (fun hq => h2 (by rw [← hq]; exact hx))]
    · have e : renameCol x = x := if_neg hx
      rw [e]

theorem colIndex_map_renameCol_MW_prc (l : List String) (hmw : "MW" ∉ l) :
    colIndex (l.map renameCol) "MW" = colIndex l "PRC" := by
  induction l with
  | nil => rfl
  | cons x xs ih =>
    have hmw' : "MW" ∉ xs := fun hq => hmw (List.mem_cons_of_mem x hq)
    have hx : x ≠ "MW" := fun hq => hmw (hq ▸ List.mem_cons_self x xs)
    simp only [List.map_cons, colIndex, ih hmw']
    by_cases hp : x = "PRC"
    · have e : renameCol x = "MW" := by rw [hp]; rfl
      rw [e, if_pos rfl, if_pos hp]
    · have e : renameCol x = x := if_neg hp
      rw [e, if_neg hx, if_neg hp]

theorem colIndex_map_renameCol_MW_noprc (l : List String) (hprc : "PRC" ∉ l) :
    colIndex (l.map renameCol) "MW" = colIndex l "MW" := by
  induction l with
  | nil => rfl
  | cons x xs ih =>
    have hprc' : "PRC" ∉ xs := fun hq => hprc (List.mem_cons_of_mem x hq)
    have hx : x ≠ "PRC" := fun hq => hprc (hq ▸ List.mem_cons_self x xs)
    simp only [List.map_cons, colIndex, ih hprc']
    have e : renameCol x = x := if_neg hx
    rw [e]

theorem rowCell_renamed_ne_MW (header : List String) (row : List String)
    (c : String) (h1 : c ≠ "MW") (h2 : c ≠ "PRC") :
    rowCell (header.map renameCol) (row.map some) c = csvCell header row c := by
  unfold rowCell csvCell
  rw [colIndex_map_renameCol header c h1 h2]
  cases colIndex header c with
  | none => rfl
  | some j =>
    dsimp only
    rw [List.get?_map]
    cases row.get? j <;> rfl

theorem rowCell_renamed_MW_prc (header : List String) (row : List String)
    (hmw : "MW" ∉ header) :
    rowCell (header.map renameCol) (row.map some) "MW"
      = csvCell header row "PRC" := by
  unfold rowCell csvCell
  rw [colIndex_map_renameCol_MW_prc header hmw]
  cases colIndex header "PRC" with
  | none => rfl
  | some j =>
    dsimp only
    rw [List.get?_map]
    cases row.get? j <;> rfl

theorem rowCell_renamed_MW_noprc (header : List String) (row : List String)
    (hprc : "PRC" ∉ header) :
    rowCell (header.map renameCol) (row.map some) "MW"
      = csvCell header row "MW" := by
  unfold rowCell csvCell
  rw [colIndex_map_renameCol_MW_noprc header hprc]
  cases colIndex header "MW" with
  | none => rfl
  | some j =>
    dsimp only
    rw [List.get?_map]
    cases row.get? j <;> rfl

theorem reindex_row_provenance (header : List String) (row : List String)
    (hnotboth : ¬("PRC" ∈ header ∧ "MW" ∈ header)) :
    CSV_COLUMNS.map (fun c => rowCell (header.map renameCol) (row.map some) c)
      = CSV_COLUMNS.map (fun c =>
          if c = "MW" then
            (if "PRC" ∈ header then csvCell header row "PRC"
             else csvCell header row "MW")
          else csvCell header row c) := by
  apply List.map_congr_left
  intro c hc
  by_cases hMW : c = "MW"
  · subst hMW
    by_cases hp : "PRC" ∈ header
    · have hmw : "MW" ∉ header := fun hq => hnotboth ⟨hp, hq⟩
      rw [if_pos rfl, if_pos hp, rowCell_renamed_MW_prc header row hmw]
    · rw [if_pos rfl, if_neg hp, rowCell_renamed_MW_noprc header row hp]
  · have hprcne : c ≠ "PRC" := by
      intro hq
      subst hq
      revert hc
      decide
    rw [if_neg hMW, rowCell_renamed_ne_MW header row c hMW hprcne]

/-- C4: on a valid zip archive whose first member is a CSV report (with a
duplicate-free header not containing both `PRC` and `MW`, the domain on
which pandas' relabel-then-reindex is total), `Oasis.get_df` returns a
DataFrame whose columns are exactly the fixed 16-name schema in order;
every cell of the `MW` column comes from the CSV's `PRC` column when one
exists (the rename) and from its `MW` column otherwise, every other schema
column comes from the CSV column of the same name, schema columns absent
from the CSV are filled with missing values (`csvCell` is `none` for absent
columns), and CSV columns outside the schema are dropped. -/
theorem get_df_schema (name : String) (csv : CsvFile)
    (rest : List (String × CsvFile)) (pd : Option (List Nat))
    (hnodup : csv.header.Nodup)
    (hnotboth : ¬("PRC" ∈ csv.header ∧ "MW" ∈ csv.header)) :
    ∃ df, Oasis.get_df (Body.zip ((name, csv) :: rest)) pd none
        = Except.ok df ∧
      df.cols = CSV_COLUMNS ∧
      (∀ c, c ∉ CSV_COLUMNS → c ∉ df.cols) ∧
      df.rows.length = csv.rows.length ∧
      (∀ i row, csv.rows.get? i = some row →
        df.rows.get? i = some (CSV_COLUMNS.map (fun c =>
          if c = "MW" then
            (if "PRC" ∈ csv.header then csvCell csv.header row "PRC"
             else csvCell csv.header row "MW")
          else csvCell csv.header row c))) ∧
      (∀ c row, c ∉ csv.header → csvCell csv.header row c = none) := by
  refine ⟨reindex CSV_COLUMNS (renamePRCtoMW (read_csv csv)), rfl, rfl,
    ?_, ?_, ?_, ?_⟩
  · intro c hc hc2
    exact hc hc2
  · simp [reindex, renamePRCtoMW, read_csv]
  · intro i row hrow
    show ((csv.rows.map (fun r => r.map some)).map (fun r =>
        CSV_COLUMNS.map (fun c =>
          rowCell (csv.header.map renameCol) r c))).get? i = _
    rw [List.get?_map, List.get?_map, hrow]
    exact congrArg some (reindex_row_provenance csv.header row hnotboth)
  · intro c row hc
    unfold csvCell
    rw [colIndex_eq_none csv.header c hc]

/-- Witness for `get_df_schema` at a concrete CSV with a `PRC` column, an
in-schema column and an out-of-schema column. -/
theorem get_df_schema_witness :
    (CsvFile.mk ["OPR_DT", "PRC", "JUNK"] [["a", "3.5", "x"]]).header.Nodup ∧
      ¬("PRC" ∈ (CsvFile.mk ["OPR_DT", "PRC", "JUNK"]
            [["a", "3.5", "x"]]).header ∧
          "MW" ∈ (CsvFile.mk ["OPR_DT", "PRC", "JUNK"]
            [["a", "3.5", "x"]]).header) ∧
      (∃ df, Oasis.get_df
            (Body.zip [("r.csv", ⟨["OPR_DT", "PRC", "JUNK"],
              [["a", "3.5", "x"]]⟩)]) none none
          = Except.ok df ∧
        df.cols = CSV_COLUMNS ∧
        (∀ c, c ∉ CSV_COLUMNS → c ∉ df.cols) ∧
        df.rows.length = (CsvFile.mk ["OPR_DT", "PRC", "JUNK"]
          [["a", "3.5", "x"]]).rows.length ∧
        (∀ i row, (CsvFile.mk ["OPR_DT", "PRC", "JUNK"]
              [["a", "3.5", "x"]]).rows.get? i = some row →
          df.rows.get? i = some (CSV_COLUMNS.map (fun c =>
            if c = "MW" then
              (if "PRC" ∈ ["OPR_DT", "PRC", "JUNK"] then
                csvCell ["OPR_DT", "PRC", "JUNK"] row "PRC"
               else csvCell ["OPR_DT", "PRC", "JUNK"] row "MW")
            else csvCell ["OPR_DT", "PRC", "JUNK"] row c))) ∧
        (∀ c row, c ∉ ["OPR_DT", "PRC", "JUNK"] →
          csvCell ["OPR_DT", "PRC", "JUNK"] row c = none)) :=
  ⟨by decide, by decide,
    get_df_schema "r.csv" ⟨["OPR_DT", "PRC", "JUNK"], [["a", "3.5", "x"]]⟩ []
      none (by decide) (by decide)⟩
